import Mathlib

/-!
Verification of `PokeAlarm/LocationServices/GMaps.py`: a rate-limited,
memoizing client for a Nominatim geocoding server.

Shallow embedding conventions:
* JSON values are `JVal`; Python floats are modelled as rationals (`ℚ`).
* Python exceptions raised inside the dispatcher / mapping code are values of
  `ReqErr`; code that can raise returns `Except ReqErr _`.
* The HTTP layer is an oracle: each operation takes the outcome of
  `request.json()` (or a transport failure) as an explicit argument
  `Except ReqErr JVal`, and everything after that point is translated from
  the source.
* Python `dict`s are association lists looked up front-to-back; the
  memoization dicts of the client are such lists inside `GState`.
* Python is dynamically typed, so a dict may hold keys of several types.
  The reverse-geocode history is keyed by `RKey` (string or float-pair),
  and the geocode request parameters by `PKey` (string key, or the Python
  builtin function `format`, which the source uses unquoted as a key).
-/

namespace GMapsModel

/-- JSON values, as returned by `request.json()`. Numbers are rationals. -/
inductive JVal where
  | jnull : JVal
  | jbool : Bool → JVal
  | jnum : ℚ → JVal
  | jstr : String → JVal
  | jarr : List JVal → JVal
  | jobj : List (String × JVal) → JVal

/-- Python exceptions that the client's code can raise internally.  All are
caught at the operation boundary (`except Exception`). -/
inductive ReqErr where
  | httpError    -- requests.exceptions.HTTPError (raise_for_status)
  | timeout      -- requests.exceptions.Timeout
  | valueError   -- ValueError (unexpected response status, float() failure)
  | typeError    -- TypeError (`'k' in body` / `body['k']` on a non-container)
  | indexError   -- IndexError (`body[0]` of an empty list)
  | keyError     -- KeyError (subscript of a missing key)
deriving DecidableEq

/-- Whether `pat` occurs as a substring of `s` (Python `pat in s` on strings). -/
def hasSubstr (s pat : String) : Bool :=
  pat.isEmpty || (s.splitOn pat).length > 1

/-- Python membership test `k in v` for a string `k`: key lookup on dicts,
value membership on lists, substring test on strings; `TypeError` otherwise. -/
def pyContains : JVal → String → Except ReqErr Bool
  | .jobj fs, k => .ok (fs.any (fun p => p.1 == k))
  | .jarr es, k => .ok (es.any (fun e => match e with | .jstr s => s == k | _ => false))
  | .jstr s, k => .ok (hasSubstr s k)
  | _, _ => .error .typeError

/-- Python subscript `v[k]` for a string `k`: dict lookup (KeyError when
missing), `TypeError` on every other value. -/
def pyIndex : JVal → String → Except ReqErr JVal
  | .jobj fs, k =>
    match fs.lookup k with
    | some v => .ok v
    | none => .error .keyError
  | _, _ => .error .typeError

/-- Fold a list of decimal digit characters into a natural number; `none` as
soon as a non-digit appears. -/
def digitsToNat? (l : List Char) : Option ℕ :=
  l.foldl (fun acc c =>
    match acc with
    | none => none
    | some a => if c.isDigit then some (a * 10 + (c.toNat - 48)) else none)
    (some 0)

/-- Parse a plain decimal literal (optional sign, digits, optional fractional
part) into a rational, modelling Python `float(str)` on the numeric strings the
provider sends.  Exponent / `inf` / `nan` forms of the Python float literal are
not modelled; on them the parse fails like any malformed string. -/
def parseDecimal? (s : String) : Option ℚ :=
  let t := s.trim
  let (sgn, rest) :=
    if t.startsWith "-" then ((-1 : ℚ), t.drop 1)
    else if t.startsWith "+" then ((1 : ℚ), t.drop 1)
    else ((1 : ℚ), t)
  match rest.splitOn "." with
  | [ip] =>
    if ip.isEmpty then none
    else (digitsToNat? ip.data).map (fun n => sgn * (n : ℚ))
  | [ip, fp] =>
    if ip.isEmpty && fp.isEmpty then none
    else
      match digitsToNat? ip.data, digitsToNat? fp.data with
      | some i, some f =>
        some (sgn * ((i : ℚ) + (f : ℚ) / ((10 : ℚ) ^ fp.length)))
      | _, _ => none
  | _ => none

/-- Python `float(v)`: identity on numbers, decimal parse on strings
(`ValueError` when malformed), `TypeError` on containers and `None`. -/
def pyFloat : JVal → Except ReqErr ℚ
  | .jnum q => .ok q
  | .jbool b => .ok (if b then 1 else 0)
  | .jstr s =>
    match parseDecimal? s with
    | some q => .ok q
    | none => .error .valueError
  | _ => .error .typeError

/-- `_make_request`, lines 117-123: the error-field handling applied to the
(list-unwrapped) body.  A body without an `error` key is returned as is; the
recognized sentinel maps to the empty dict; any other `error` value raises
`ValueError`. -/
def normalizeObj (fs : List (String × JVal)) : Except ReqErr JVal :=
  match fs.lookup "error" with
  | none => .ok (.jobj fs)
  | some (.jstr s) =>
    if s = "Unable to geocode" then .ok (.jobj [])
    else .error .valueError
  | some _ => .error .valueError

/-- The `'error' not in body` test and the branches after it, for a body of any
JSON shape (Python `in` is membership, not key lookup, on non-dicts): on a list
or string that "contains" `'error'`, the subscript `body['error']` raises
`TypeError`; otherwise the body is returned unchanged. -/
def normalizeTop : JVal → Except ReqErr JVal
  | .jobj fs => normalizeObj fs
  | .jarr es =>
    if es.any (fun e => match e with | .jstr s => s == "error" | _ => false)
    then .error .typeError else .ok (.jarr es)
  | .jstr s =>
    if hasSubstr s "error" then .error .typeError else .ok (.jstr s)
  | _ => .error .typeError

/-- `_make_request`, lines 112-123, after the HTTP exchange: `body[0]` when the
parsed body is a list (IndexError when empty), then the error-field handling. -/
def normalizeBody : JVal → Except ReqErr JVal
  | .jarr [] => .error .indexError
  | .jarr (x :: _) => normalizeTop x
  | v => normalizeTop v

/-- `_make_request` as seen by the operations: the HTTP layer's outcome
(either a transport/status exception or the parsed JSON body) followed by the
body normalization.  The rate-limiting prologue is modelled separately by
`rateSleep` / `recordTimestamp`. -/
def makeRequest (httpOut : Except ReqErr JVal) : Except ReqErr JVal :=
  httpOut.bind normalizeBody

/-- `GMaps._queries_per_second`: the sliding-window capacity. -/
def queriesPerSecond : ℕ := 50

/-- `_make_request`, lines 80-85: the seconds slept before dispatching, given
the rate window (oldest timestamp first, as in `self._window`, a deque with
`maxlen = 50`) and the current time `now` (`time.time()`), both in seconds.
When the window is full and less than one second has elapsed since its oldest
entry, the code sleeps off the difference; otherwise it does not sleep. -/
def rateSleep (window : List ℚ) (now : ℚ) : ℚ :=
  if window.length = queriesPerSecond then
    match window with
    | [] => 0
    | t0 :: _ => if now - t0 < 1 then 1 - (now - t0) else 0
  else 0

/-- `_make_request`, line 97: `self._window.append(time.time())` on a deque
with `maxlen = 50` — the post-wait timestamp `t` is appended, evicting the
oldest entry exactly when the deque is at capacity. -/
def recordTimestamp (window : List ℚ) (t : ℚ) : List ℚ :=
  if window.length = queriesPerSecond then window.tail ++ [t]
  else window ++ [t]

/-- A key of the request-parameter dict built by `geocode`, line 137.  The
source writes `{'q': address, 'accept-language': language, format: 'json'}` —
the third key is the unquoted name `format`, which in Python denotes the
builtin function `format`, not the string `'format'`. -/
inductive PKey where
  | str : String → PKey
  | builtinFormat : PKey
deriving DecidableEq

/-- `geocode`, lines 137-138: the service name and the parameter dict passed
to `_make_request` on a cache miss (the address has already been lower-cased
at line 130). -/
def geocodeCall (address language : String) : String × List (PKey × JVal) :=
  ("search",
    [(.str "q", .jstr address),
     (.str "accept-language", .jstr language),
     (.builtinFormat, .jstr "json")])

/-- `geocode`, lines 140-141: extract the result from a normalized response.
`.ok none` models falling through with `latlng = None` (no `lat`/`lng` pair);
`.ok (some (lat, lng))` models a successful extraction; `.error` models an
exception raised by the membership tests, the subscripts or `float`. -/
def extractLatLng (resp : JVal) : Except ReqErr (Option (ℚ × ℚ)) := do
  let hasLat ← pyContains resp "lat"
  if hasLat then
    let hasLng ← pyContains resp "lng"
    if hasLng then
      let lv ← pyIndex resp "lat"
      let lat ← pyFloat lv
      let gv ← pyIndex resp "lng"
      let lng ← pyFloat gv
      return some (lat, lng)
    else
      return none
  else
    return none

/-- Python `address.lower()` (ASCII case folding; the Unicode-specific
mappings of `str.lower` are not modelled and no theorem uses them). -/
def pyLower (s : String) : String := String.mk (s.data.map Char.toLower)

/-- The geocode memoization dict `self._geocode_hist`: lower-cased address ↦
result (which can itself be `none`, Python `None`). -/
def GeoHist := List (String × Option (ℚ × ℚ))

/-- `geocode`, lines 126-159, as a state transformer.  Input: the memoization
dict, the raw address, and the HTTP oracle's outcome for this call (unused on
a cache hit).  Output: the new dict, the returned `latlng`, and whether the
dispatcher was invoked.  Every exception raised by dispatch or mapping is
caught by the `except` clauses (lines 145-157), skipping the memoization
write and returning the default `None`; nothing propagates to the caller. -/
def geocodeRun (hist : GeoHist) (address : String)
    (httpOut : Except ReqErr JVal) :
    GeoHist × Option (ℚ × ℚ) × Bool :=
  let key := pyLower address
  match List.lookup key hist with
  | some v => (hist, v, false)
  | none =>
    match makeRequest httpOut with
    | .error _ => (hist, none, true)
    | .ok resp =>
      match extractLatLng resp with
      | .error _ => (hist, none, true)
      | .ok latlng => ((key, latlng) :: hist, latlng, true)

/-- Modelled from the spec: the unknown-value sentinel system
(`PokeAlarm.Unknown`, imported but not under `src/`), "a typed placeholder
meaning field not populated, distinct by category (small/regular/empty) per
field's expected shape". -/
inductive UnknownVal where
  | SMALL : UnknownVal
  | REGULAR : UnknownVal
  | EMPTY : UnknownVal
deriving DecidableEq

/-- A value held in a field of the reverse-geocode DTS dict: either a JSON
value taken from the provider's `address` object, or one of the sentinels. -/
inductive FieldVal where
  | jv : JVal → FieldVal
  | unk : UnknownVal → FieldVal

/-- Modelled from the spec: the string form of a sentinel when interpolated by
`str.format` (the `Unknown` module is not under `src/`; the spec treats the
sentinels as opaque markers, with `EMPTY` used so the composite address does
not "look weird" on unnamed roads, i.e. it renders as nothing).  No theorem
below depends on the `SMALL`/`REGULAR` renderings. -/
def unknownStr : UnknownVal → String
  | .SMALL => "?"
  | .REGULAR => "unknown"
  | .EMPTY => ""

/-- Python `str(v)` for a JSON value, as used by `u"{} {}".format`: strings
interpolate as themselves.  (Non-string renderings are modelled loosely; the
provider's `address` fields and the sentinels are the only values formatted
by the source, and no theorem depends on the non-string cases.) -/
def renderJVal : JVal → String
  | .jstr s => s
  | .jnum q => toString q
  | .jbool b => if b then "True" else "False"
  | .jnull => "None"
  | .jarr _ => "[...]"
  | .jobj _ => "{...}"

/-- `str(v)` for a field value. -/
def render : FieldVal → String
  | .jv v => renderJVal v
  | .unk u => unknownStr u

/-- The reverse-geocode DTS: the fixed field set of
`GMaps._reverse_geocode_defaults`. -/
structure AddressDetails where
  street_num : FieldVal
  street : FieldVal
  address : FieldVal
  address_eu : FieldVal
  postal : FieldVal
  neighborhood : FieldVal
  sublocality : FieldVal
  city : FieldVal
  county : FieldVal
  state : FieldVal
  country : FieldVal

/-- `GMaps._reverse_geocode_defaults`, lines 161-173: every field at its
category sentinel (`Unknown.SMALL` for the street number, `Unknown.REGULAR`
for everything else). -/
def reverseGeocodeDefaults : AddressDetails :=
  { street_num := .unk .SMALL
    street := .unk .REGULAR
    address := .unk .REGULAR
    address_eu := .unk .REGULAR
    postal := .unk .REGULAR
    neighborhood := .unk .REGULAR
    sublocality := .unk .REGULAR
    city := .unk .REGULAR
    county := .unk .REGULAR
    state := .unk .REGULAR
    country := .unk .REGULAR }

/-- Python `details.get(k, default)` on the `address` dict: the stored value
(wrapped as a provider value) when the key is present, the default otherwise. -/
def dget (fs : List (String × JVal)) (k : String) (d : FieldVal) : FieldVal :=
  match fs.lookup k with
  | some v => .jv v
  | none => d

/-- `reverse_geocode`, lines 190-204: the field mapping applied to the
response's `address` object (a dict `fs`), starting from the defaults.  Each
field resolves through the source's nested `.get` chain, first match wins. -/
def mapAddress (fs : List (String × JVal)) : AddressDetails :=
  let street_num := dget fs "house_number" (dget fs "house_name" (.unk .EMPTY))
  let street := dget fs "road" (dget fs "street"
    (dget fs "city_block" (dget fs "retail" (.unk .EMPTY))))
  { street_num := street_num
    street := street
    address := .jv (.jstr (render street_num ++ " " ++ render street))
    address_eu := .jv (.jstr (render street ++ " " ++ render street_num))
    postal := dget fs "postcode" (.unk .REGULAR)
    country := dget fs "country" (dget fs "country_code" (.unk .REGULAR))
    state := dget fs "region" (dget fs "state" (.unk .REGULAR))
    city := dget fs "village" (dget fs "town"
      (dget fs "city" (dget fs "municipality" (.unk .REGULAR))))
    county := dget fs "county" (dget fs "state_district" (.unk .REGULAR))
    neighborhood := dget fs "neighbourhood" (dget fs "allotments"
      (dget fs "quarter" (.unk .REGULAR)))
    sublocality := dget fs "city_district" (dget fs "district"
      (dget fs "borough" (dget fs "suburb"
        (dget fs "subdivision" (.unk .REGULAR))))) }

/-- The spec's declarative reading of a fallback chain (design note: "an
ordered list of candidate key names evaluated first-match-wins per field"):
the value of the first candidate key present in the dict, else the default. -/
def firstMatch (fs : List (String × JVal)) : List String → FieldVal → FieldVal
  | [], d => d
  | k :: ks, d =>
    match fs.lookup k with
    | some v => .jv v
    | none => firstMatch fs ks d

/-- A key of the Python dict `self._reverse_geocode_hist`.  The lookup
(line 181) uses a formatted string, the store (line 206) uses the raw
`latlng` tuple; a Python dict can hold both, and a string never equals a
tuple. -/
inductive RKey where
  | str : String → RKey
  | tup : ℚ → ℚ → RKey
deriving DecidableEq

/-- `'{:.5f}'.format(x)`: render `x` to exactly five decimal places.  The
scaled value `⌊x·10⁵ + 1/2⌋` is computed directly on the numerator and
denominator in integer arithmetic; floats are modelled as rationals, ties
are modelled with round-half-up where Python's float formatting rounds
half-to-even, and a negative zero renders without the sign — no theorem
sits on either edge. -/
def fmt5 (q : ℚ) : String :=
  let n : ℤ := Int.fdiv (2 * q.num * 100000 + (q.den : ℤ)) (2 * (q.den : ℤ))
  let sign := if n < 0 then "-" else ""
  let m := n.natAbs
  let ip := m / 100000
  let fp := m % 100000
  let fpStr := toString fp
  let pad := String.mk (List.replicate (5 - fpStr.length) '0')
  sign ++ toString ip ++ "." ++ pad ++ fpStr

/-- `reverse_geocode`, line 179: the cache key checked by the lookup —
`'{:.5f},{:.5f}'.format(latlng[0], latlng[1])`. -/
def latlngHistKey (latlng : ℚ × ℚ) : String :=
  fmt5 latlng.1 ++ "," ++ fmt5 latlng.2

/-- The reverse-geocode memoization dict `self._reverse_geocode_hist`. -/
def RevHist := List (RKey × AddressDetails)

/-- `reverse_geocode`, lines 176-221, as a state transformer.  Input: the
memoization dict, the coordinate, and the HTTP oracle's outcome.  Output: the
new dict, the returned DTS, and whether the dispatcher was invoked.  On a miss
the dispatcher runs; if `'address' in response` its object is mapped into the
DTS (a non-dict `address` value raises `AttributeError` at the first `.get`,
caught like every other exception); the memoization write at line 206 —
`self._reverse_geocode_hist[latlng] = dts`, keyed by the raw tuple — runs
whenever the `try` block reaches it, i.e. also when the response has no
`address`; every exception is caught by lines 207-219, skipping the write and
returning the default DTS. -/
def reverseGeocodeRun (hist : RevHist) (latlng : ℚ × ℚ)
    (httpOut : Except ReqErr JVal) :
    RevHist × AddressDetails × Bool :=
  let key := latlngHistKey latlng
  match List.lookup (RKey.str key) hist with
  | some dts => (hist, dts, false)
  | none =>
    match makeRequest httpOut with
    | .error _ => (hist, reverseGeocodeDefaults, true)
    | .ok resp =>
      match pyContains resp "address" with
      | .error _ => (hist, reverseGeocodeDefaults, true)
      | .ok false =>
        ((RKey.tup latlng.1 latlng.2, reverseGeocodeDefaults) :: hist,
          reverseGeocodeDefaults, true)
      | .ok true =>
        match pyIndex resp "address" with
        | .error _ => (hist, reverseGeocodeDefaults, true)
        | .ok (.jobj fs) =>
          let dts := mapAddress fs
          ((RKey.tup latlng.1 latlng.2, dts) :: hist, dts, true)
        | .ok _ => (hist, reverseGeocodeDefaults, true)

/-- The `address` object of the worked example: `{road: "Main St",
house_number: "42"}`. -/
def exampleAddressObj : List (String × JVal) :=
  [("road", .jstr "Main St"), ("house_number", .jstr "42")]

/-- A successful reverse-geocode HTTP outcome carrying the worked example's
`address` object. -/
def exampleRevOut : Except ReqErr JVal :=
  .ok (.jobj [("address", .jobj exampleAddressObj)])

/-! ## Theorems -/

/-- The membership test used by `pyContains` on a dict agrees with key
lookup: some pair has first component `k` exactly when `lookup k` hits. -/
theorem any_key_eq_isSome_lookup (fs : List (String × JVal)) (k : String) :
    fs.any (fun p => p.1 == k) = (List.lookup k fs).isSome := by
  induction fs with
  | nil => rfl
  | cons p t ih =>
    obtain ⟨k2, v2⟩ := p
    by_cases h : k2 = k
    · subst h
      simp [List.lookup]
    · have h1 : (k2 == k) = false := beq_eq_false_iff_ne.mpr h
      have h2 : (k == k2) = false := beq_eq_false_iff_ne.mpr (Ne.symm h)
      simp [List.lookup, h1, h2, ih]

/-- C1: the claimed memoization round trip fails on the code.  At the
coordinate `(1, 2)` the lookup key is the 5-decimal string
`"1.00000,2.00000"`, but after a completed cache miss the result sits in the
history under the tuple key `RKey.tup 1 2`; the string key still misses, and
a second `reverse_geocode` call for the same coordinate dispatches again
(`.2.2 = true`). -/
theorem reverse_geocode_second_call_dispatches_again :
    latlngHistKey (1, 2) = "1.00000,2.00000" ∧
    (reverseGeocodeRun [] (1, 2) exampleRevOut).1 =
      [(RKey.tup 1 2, mapAddress exampleAddressObj)] ∧
    List.lookup (RKey.str "1.00000,2.00000")
      (reverseGeocodeRun [] (1, 2) exampleRevOut).1 = none ∧
    (reverseGeocodeRun (reverseGeocodeRun [] (1, 2) exampleRevOut).1
      (1, 2) exampleRevOut).2.2 = true :=
  ⟨rfl, rfl, rfl, rfl⟩

/-- C2: the claimed parameter mapping fails on the code.  For an uncached
address, `geocode` calls the dispatcher with service `"search"`, but the
parameter dict's keys are the string `"q"`, the string `"accept-language"`,
and the Python builtin function `format` (written unquoted in the source) —
not the string `"format"`. -/
theorem geocode_params_builtin_format_key :
    geocodeCall "berlin" "en" =
      ("search",
        [(PKey.str "q", .jstr "berlin"),
         (PKey.str "accept-language", .jstr "en"),
         (PKey.builtinFormat, .jstr "json")]) ∧
    (geocodeCall "berlin" "en").2.map Prod.fst ≠
      [PKey.str "q", PKey.str "accept-language", PKey.str "format"] ∧
    PKey.str "format" ∉ (geocodeCall "berlin" "en").2.map Prod.fst :=
  ⟨rfl, by decide, by decide⟩

/-- C3 counterexample: for a response body with no `address` object (here the
empty dict), `reverse_geocode` does return the all-default DTS, but it DOES
add an entry to the memoization dict — the write at line 206 sits outside the
`if 'address' in response` block, so the history is no longer empty. -/
theorem reverse_no_address_adds_entry :
    reverseGeocodeRun [] (1, 2) (.ok (.jobj [])) =
      ([(RKey.tup 1 2, reverseGeocodeDefaults)], reverseGeocodeDefaults, true) ∧
    (reverseGeocodeRun [] (1, 2) (.ok (.jobj []))).1 ≠ ([] : RevHist) :=
  ⟨rfl, fun h => List.noConfusion h⟩

/-- C3 amended: for every reverse-geocode response body without an `address`
object, the operation returns the all-default `AddressDetails` and stores it
in the memoization dict under the raw tuple key (not the formatted-string
lookup key), so the lookup key still misses afterwards — the negative result
is never served from the cache. -/
theorem reverse_no_address_default_and_tuple_entry (rhist : RevHist)
    (latlng : ℚ × ℚ) (out : Except ReqErr JVal) (body : JVal)
    (hrmiss : List.lookup (RKey.str (latlngHistKey latlng)) rhist = none)
    (hok : makeRequest out = .ok body)
    (hnoaddr : pyContains body "address" = .ok false) :
    reverseGeocodeRun rhist latlng out =
      ((RKey.tup latlng.1 latlng.2, reverseGeocodeDefaults) :: rhist,
        reverseGeocodeDefaults, true) ∧
    List.lookup (RKey.str (latlngHistKey latlng))
      (reverseGeocodeRun rhist latlng out).1 = none := by
  have h1 : reverseGeocodeRun rhist latlng out =
      ((RKey.tup latlng.1 latlng.2, reverseGeocodeDefaults) :: rhist,
        reverseGeocodeDefaults, true) := by
    simp only [reverseGeocodeRun, hrmiss, hok, hnoaddr]
  refine ⟨h1, ?_⟩
  rw [h1]
  exact hrmiss

/-- C3 amended, witnessed at the empty history, coordinate `(1, 2)` and the
empty response body. -/
theorem reverse_no_address_default_and_tuple_entry_witness :
    reverseGeocodeRun [] (1, 2) (.ok (.jobj [])) =
      ([(RKey.tup 1 2, reverseGeocodeDefaults)], reverseGeocodeDefaults, true) ∧
    List.lookup (RKey.str (latlngHistKey (1, 2)))
      (reverseGeocodeRun [] (1, 2) (.ok (.jobj []))).1 = none :=
  reverse_no_address_default_and_tuple_entry [] (1, 2) (.ok (.jobj []))
    (.jobj []) rfl rfl rfl

/-- C4: geocode memoization round trip.  If a first call on address `a` is a
cache miss whose dispatch and mapping complete (the dispatcher returns a body
and the extraction does not raise), the result `v` — including `v = none`,
the unresolvable case — is stored under the lower-cased address, and a second
call on any case variant `b` of `a` returns that stored value without
invoking the dispatcher, whatever the second call's oracle would answer. -/
theorem geocode_memoizes_results (hist : GeoHist) (a b : String)
    (out out2 : Except ReqErr JVal) (body : JVal) (v : Option (ℚ × ℚ))
    (hmiss : List.lookup (pyLower a) hist = none)
    (hok : makeRequest out = .ok body)
    (hex : extractLatLng body = .ok v)
    (hcase : pyLower b = pyLower a) :
    geocodeRun hist a out = ((pyLower a, v) :: hist, v, true) ∧
    geocodeRun ((pyLower a, v) :: hist) b out2 =
      ((pyLower a, v) :: hist, v, false) := by
  constructor
  · simp only [geocodeRun, hmiss, hok, hex]
  · simp only [geocodeRun, hcase, List.lookup, beq_self_eq_true]

/-- C4, witnessed: first call on `"Berlin"` resolves to `(1, 2)` and stores
it under `"berlin"`; the second call on `"BERLIN"` returns it without
dispatching, even against a dispatcher that would now time out. -/
theorem geocode_memoizes_results_witness :
    geocodeRun [] "Berlin" (.ok (.jobj [("lat", .jnum 1), ("lng", .jnum 2)])) =
      ([("berlin", some (1, 2))], some (1, 2), true) ∧
    geocodeRun [("berlin", some (1, 2))] "BERLIN" (.error .timeout) =
      ([("berlin", some (1, 2))], some (1, 2), false) :=
  geocode_memoizes_results [] "Berlin" "BERLIN"
    (.ok (.jobj [("lat", .jnum 1), ("lng", .jnum 2)])) (.error .timeout)
    (.jobj [("lat", .jnum 1), ("lng", .jnum 2)]) (some (1, 2))
    rfl rfl rfl rfl

/-- C5: the sliding-window rate limiter.  When the window holds exactly
`N = 50` timestamps (oldest `t0` first) and the elapsed time `now - t0` is
below one second, the dispatch sleeps exactly `1 - (now - t0)` seconds;
with one second or more elapsed it does not sleep; the post-wait timestamp
`tp` is appended while the oldest entry is evicted.  A window not at
capacity never sleeps and appends without eviction. -/
theorem rate_limiter_window_behavior (w : List ℚ) (t0 : ℚ) (rest : List ℚ)
    (now tp : ℚ) (hw : w = t0 :: rest)
    (hlen : w.length = queriesPerSecond) :
    (now - t0 < 1 → rateSleep w now = 1 - (now - t0)) ∧
    (1 ≤ now - t0 → rateSleep w now = 0) ∧
    recordTimestamp w tp = rest ++ [tp] ∧
    (∀ w2 : List ℚ, w2.length ≠ queriesPerSecond →
      rateSleep w2 now = 0 ∧ recordTimestamp w2 tp = w2 ++ [tp]) := by
  subst hw
  refine ⟨?_, ?_, ?_, ?_⟩
  · intro h
    unfold rateSleep
    rw [if_pos hlen]
    show (if now - t0 < 1 then 1 - (now - t0) else 0) = 1 - (now - t0)
    rw [if_pos h]
  · intro h
    unfold rateSleep
    rw [if_pos hlen]
    show (if now - t0 < 1 then 1 - (now - t0) else 0) = 0
    rw [if_neg (not_lt.mpr h)]
  · unfold recordTimestamp
    rw [if_pos hlen]
    rfl
  · intro w2 h2
    constructor
    · unfold rateSleep
      rw [if_neg h2]
    · unfold recordTimestamp
      rw [if_neg h2]

/-- C5, witnessed on a full window of 50 zero timestamps: at `now = 1/2` the
sleep is exactly `1 - (1/2 - 0)`; at `now = 3` there is no sleep; recording
`7` evicts the oldest entry; the empty window never sleeps. -/
theorem rate_limiter_window_behavior_witness :
    rateSleep (0 :: List.replicate 49 (0 : ℚ)) (1/2) = 1 - ((1/2 : ℚ) - 0) ∧
    rateSleep (0 :: List.replicate 49 (0 : ℚ)) 3 = 0 ∧
    recordTimestamp (0 :: List.replicate 49 (0 : ℚ)) 7 =
      List.replicate 49 (0 : ℚ) ++ [7] ∧
    rateSleep ([] : List ℚ) (1/2) = 0 := by
  have h1 := rate_limiter_window_behavior (0 :: List.replicate 49 (0 : ℚ)) 0
    (List.replicate 49 (0 : ℚ)) (1/2) 7 rfl rfl
  have h2 := rate_limiter_window_behavior (0 :: List.replicate 49 (0 : ℚ)) 0
    (List.replicate 49 (0 : ℚ)) 3 7 rfl rfl
  exact ⟨h1.1 (by norm_num), h2.2.1 (by norm_num), h1.2.2.1,
    (h1.2.2.2 [] (by decide)).1⟩

/-- C6: error containment.  On a cache miss, whenever the dispatcher fails
(transport error, HTTP status, or the ValueError of the error-field check) or
the response mapping raises (a failing `float` conversion in `geocode`; a
failing `address` subscript or a non-dict `address` value in
`reverse_geocode`), the operation returns its default result — `none` for
geocode, the all-sentinel DTS for reverse geocode — with the memoization
dict unchanged, and (being a total function of the model) raises nothing to
its caller. -/
theorem operations_contain_failures (hist : GeoHist) (rhist : RevHist)
    (a : String) (latlng : ℚ × ℚ)
    (hmiss : List.lookup (pyLower a) hist = none)
    (hrmiss : List.lookup (RKey.str (latlngHistKey latlng)) rhist = none) :
    (∀ (out : Except ReqErr JVal) (e : ReqErr), makeRequest out = .error e →
      geocodeRun hist a out = (hist, none, true) ∧
      reverseGeocodeRun rhist latlng out =
        (rhist, reverseGeocodeDefaults, true)) ∧
    (∀ (out : Except ReqErr JVal) (body : JVal) (e : ReqErr),
      makeRequest out = .ok body → extractLatLng body = .error e →
      geocodeRun hist a out = (hist, none, true)) ∧
    (∀ (out : Except ReqErr JVal) (body : JVal) (e : ReqErr),
      makeRequest out = .ok body → pyContains body "address" = .ok true →
      pyIndex body "address" = .error e →
      reverseGeocodeRun rhist latlng out =
        (rhist, reverseGeocodeDefaults, true)) ∧
    (∀ (out : Except ReqErr JVal) (body av : JVal),
      makeRequest out = .ok body → pyContains body "address" = .ok true →
      pyIndex body "address" = .ok av → (∀ fs, av ≠ .jobj fs) →
      reverseGeocodeRun rhist latlng out =
        (rhist, reverseGeocodeDefaults, true)) := by
  refine ⟨?_, ?_, ?_, ?_⟩
  · intro out e herr
    constructor
    · simp only [geocodeRun, hmiss, herr]
    · simp only [reverseGeocodeRun, hrmiss, herr]
  · intro out body e hok hex
    simp only [geocodeRun, hmiss, hok, hex]
  · intro out body e hok hcont hidx
    simp only [reverseGeocodeRun, hrmiss, hok, hcont, hidx]
  · intro out body av hok hcont hidx hno
    simp only [reverseGeocodeRun, hrmiss, hok, hcont, hidx]

/-- C6, witnessed: a timed-out dispatch leaves both operations at their
defaults; a `float({})` TypeError in the geocode mapping, a `list['address']`
TypeError on a (nested-)list body, and a string-valued `address` object in
the reverse mapping all do the same. -/
theorem operations_contain_failures_witness :
    geocodeRun [] "x" (.error .timeout) = ([], none, true) ∧
    reverseGeocodeRun [] (1, 2) (.error .timeout) =
      ([], reverseGeocodeDefaults, true) ∧
    geocodeRun [] "x" (.ok (.jobj [("lat", .jobj []), ("lng", .jnum 2)])) =
      ([], none, true) ∧
    reverseGeocodeRun [] (1, 2) (.ok (.jarr [.jarr [.jstr "address"]])) =
      ([], reverseGeocodeDefaults, true) ∧
    reverseGeocodeRun [] (1, 2) (.ok (.jobj [("address", .jstr "x")])) =
      ([], reverseGeocodeDefaults, true) := by
  have h := operations_contain_failures [] [] "x" (1, 2) rfl rfl
  have p1 := h.1 (.error .timeout) .timeout rfl
  refine ⟨p1.1, p1.2, ?_, ?_, ?_⟩
  · exact h.2.1 (.ok (.jobj [("lat", .jobj []), ("lng", .jnum 2)]))
      (.jobj [("lat", .jobj []), ("lng", .jnum 2)]) .typeError rfl rfl
  · exact h.2.2.1 (.ok (.jarr [.jarr [.jstr "address"]]))
      (.jarr [.jstr "address"]) .typeError rfl rfl rfl
  · exact h.2.2.2 (.ok (.jobj [("address", .jstr "x")]))
      (.jobj [("address", .jstr "x")]) (.jstr "x") rfl rfl rfl
      (fun fs hx => JVal.noConfusion hx)

/-- C7: a parsed body of exactly `{"error": "Unable to geocode"}` makes the
dispatcher return the empty dict instead of failing; `geocode` then finds no
`lat`/`lng`, returns `none`, and writes that `none` into the cache, so a
repeat call for the same address no longer dispatches. -/
theorem unable_to_geocode_memoized_null (hist : GeoHist) (a : String)
    (hmiss : List.lookup (pyLower a) hist = none) :
    makeRequest (.ok (.jobj [("error", .jstr "Unable to geocode")])) =
      .ok (.jobj []) ∧
    geocodeRun hist a (.ok (.jobj [("error", .jstr "Unable to geocode")])) =
      ((pyLower a, none) :: hist, none, true) ∧
    (∀ out2, geocodeRun ((pyLower a, none) :: hist) a out2 =
      ((pyLower a, none) :: hist, none, false)) := by
  refine ⟨rfl, ?_, ?_⟩
  · simp only [geocodeRun, hmiss]
    rfl
  · intro out2
    simp only [geocodeRun, List.lookup, beq_self_eq_true]

/-- C7, witnessed at the address `"nowhere"` and an empty cache. -/
theorem unable_to_geocode_memoized_null_witness :
    makeRequest (.ok (.jobj [("error", .jstr "Unable to geocode")])) =
      .ok (.jobj []) ∧
    geocodeRun [] "nowhere"
      (.ok (.jobj [("error", .jstr "Unable to geocode")])) =
      ([("nowhere", none)], none, true) ∧
    geocodeRun [("nowhere", none)] "nowhere" (.error .timeout) =
      ([("nowhere", none)], none, false) :=
  have h := unable_to_geocode_memoized_null [] "nowhere" rfl
  ⟨h.1, h.2.1, h.2.2 (.error .timeout)⟩

/-- C8: a parsed body whose `error` field holds anything but the recognized
`"Unable to geocode"` sentinel makes the dispatcher fail with `ValueError`;
both operations catch it, return their default result, and add nothing to
their memoization dicts. -/
theorem provider_error_default_uncached (hist : GeoHist) (rhist : RevHist)
    (a : String) (latlng : ℚ × ℚ) (fs : List (String × JVal)) (v : JVal)
    (hmiss : List.lookup (pyLower a) hist = none)
    (hrmiss : List.lookup (RKey.str (latlngHistKey latlng)) rhist = none)
    (herr : List.lookup "error" fs = some v)
    (hnot : ∀ s, v = .jstr s → s ≠ "Unable to geocode") :
    makeRequest (.ok (.jobj fs)) = .error .valueError ∧
    geocodeRun hist a (.ok (.jobj fs)) = (hist, none, true) ∧
    reverseGeocodeRun rhist latlng (.ok (.jobj fs)) =
      (rhist, reverseGeocodeDefaults, true) := by
  have hval : makeRequest (.ok (.jobj fs)) = .error .valueError := by
    show normalizeObj fs = .error .valueError
    unfold normalizeObj
    rw [herr]
    cases v with
    | jstr s =>
      simp only
      rw [if_neg (hnot s rfl)]
    | jnull => rfl
    | jbool b => rfl
    | jnum q => rfl
    | jarr l => rfl
    | jobj o => rfl
  refine ⟨hval, ?_, ?_⟩
  · simp only [geocodeRun, hmiss, hval]
  · simp only [reverseGeocodeRun, hrmiss, hval]

/-- C8, witnessed on the body `{"error": "quota exceeded"}` with both caches
empty. -/
theorem provider_error_default_uncached_witness :
    makeRequest (.ok (.jobj [("error", .jstr "quota exceeded")])) =
      .error .valueError ∧
    geocodeRun [] "x" (.ok (.jobj [("error", .jstr "quota exceeded")])) =
      ([], none, true) ∧
    reverseGeocodeRun [] (1, 2)
      (.ok (.jobj [("error", .jstr "quota exceeded")])) =
      ([], reverseGeocodeDefaults, true) :=
  provider_error_default_uncached [] [] "x" (1, 2)
    [("error", .jstr "quota exceeded")] (.jstr "quota exceeded")
    rfl rfl rfl
    (fun s h => by
      injection h with h2
      rw [← h2]
      decide)

/-- C9 counterexample: on the worked example `{road: "Main St",
house_number: "42"}` the composite fields are as claimed, but it is not true
that "every other field equals its category sentinel": the `street_num`
field equals the provider string `"42"`, which is none of the three
sentinels (and likewise `street` equals `"Main St"`). -/
theorem mapped_street_fields_not_sentinels :
    (mapAddress exampleAddressObj).address = .jv (.jstr "42 Main St") ∧
    (mapAddress exampleAddressObj).address_eu = .jv (.jstr "Main St 42") ∧
    (mapAddress exampleAddressObj).street_num = .jv (.jstr "42") ∧
    (mapAddress exampleAddressObj).street_num ≠ .unk .SMALL ∧
    (mapAddress exampleAddressObj).street_num ≠ .unk .REGULAR ∧
    (mapAddress exampleAddressObj).street_num ≠ .unk .EMPTY :=
  ⟨rfl, rfl, rfl,
    fun h => FieldVal.noConfusion h,
    fun h => FieldVal.noConfusion h,
    fun h => FieldVal.noConfusion h⟩

/-- C9 amended: on the worked example the `address` field is `"42 Main St"`,
`address_eu` is `"Main St 42"`, `street_num` is `"42"`, `street` is
`"Main St"`, and every field not determined by the given `address` object is
at its category sentinel; in general the street field resolves through the
ordered candidate list `road`, `street`, `city_block`, `retail` with the
empty sentinel as final fallback, first match wins. -/
theorem reverse_field_mapping_example_and_chain :
    (mapAddress exampleAddressObj).address = .jv (.jstr "42 Main St") ∧
    (mapAddress exampleAddressObj).address_eu = .jv (.jstr "Main St 42") ∧
    (mapAddress exampleAddressObj).street_num = .jv (.jstr "42") ∧
    (mapAddress exampleAddressObj).street = .jv (.jstr "Main St") ∧
    (mapAddress exampleAddressObj).postal = .unk .REGULAR ∧
    (mapAddress exampleAddressObj).neighborhood = .unk .REGULAR ∧
    (mapAddress exampleAddressObj).sublocality = .unk .REGULAR ∧
    (mapAddress exampleAddressObj).city = .unk .REGULAR ∧
    (mapAddress exampleAddressObj).county = .unk .REGULAR ∧
    (mapAddress exampleAddressObj).state = .unk .REGULAR ∧
    (mapAddress exampleAddressObj).country = .unk .REGULAR ∧
    ∀ fs : List (String × JVal),
      (mapAddress fs).street =
        firstMatch fs ["road", "street", "city_block", "retail"]
          (.unk .EMPTY) :=
  ⟨rfl, rfl, rfl, rfl, rfl, rfl, rfl, rfl, rfl, rfl, rfl, fun _ => rfl⟩

/-- C10 (implicit): `geocode` recognizes only the key `"lng"` as longitude.
For every response body carrying numeric `lat` and `lon` fields but no
`lng`, the extraction finds no pair, `geocode` returns `none`, memoizes that
`none` under the lower-cased address, and a repeat call for the same address
no longer dispatches. -/
theorem geocode_ignores_lon_key (hist : GeoHist) (a : String)
    (fs : List (String × JVal)) (lat lon : ℚ)
    (hmiss : List.lookup (pyLower a) hist = none)
    (herr : List.lookup "error" fs = none)
    (hlat : List.lookup "lat" fs = some (.jnum lat))
    (hlon : List.lookup "lon" fs = some (.jnum lon))
    (hlng : List.lookup "lng" fs = none) :
    geocodeRun hist a (.ok (.jobj fs)) =
      ((pyLower a, none) :: hist, none, true) ∧
    (∀ out2, geocodeRun ((pyLower a, none) :: hist) a out2 =
      ((pyLower a, none) :: hist, none, false)) := by
  have hreq : makeRequest (.ok (.jobj fs)) = .ok (.jobj fs) := by
    show normalizeObj fs = .ok (.jobj fs)
    unfold normalizeObj
    rw [herr]
  have hex : extractLatLng (.jobj fs) = .ok none := by
    unfold extractLatLng
    simp only [pyContains, any_key_eq_isSome_lookup, hlat, hlng]
    rfl
  constructor
  · simp only [geocodeRun, hmiss, hreq, hex]
  · intro out2
    simp only [geocodeRun, List.lookup, beq_self_eq_true]

/-- C10, witnessed on the body `{"lat": 1, "lon": 2}` at the address `"x"`
with an empty cache. -/
theorem geocode_ignores_lon_key_witness :
    geocodeRun [] "x" (.ok (.jobj [("lat", .jnum 1), ("lon", .jnum 2)])) =
      ([("x", none)], none, true) ∧
    geocodeRun [("x", none)] "x" (.error .timeout) =
      ([("x", none)], none, false) :=
  have h := geocode_ignores_lon_key [] "x"
    [("lat", .jnum 1), ("lon", .jnum 2)] 1 2 rfl rfl rfl rfl rfl
  ⟨h.1, h.2 (.error .timeout)⟩

end GMapsModel
